import Mathlib

/-!
Verification of the payment/event-confirmation-driven issuance orchestrator
(Trust-and-taste-NKUST).  The definitions below are shallow embeddings of the
JavaScript handlers in `src/AI-order/server.js`, `src/MPT-Issuer/server.mjs`
and `src/Smart-Locker/server.js`; machine numbers are modelled as `Nat`/`Int`
and JS monetary values as `Rat`, stateful handlers as explicit state passing,
and the interleaving of concurrent HTTP requests at `await` suspension points
as a scheduled small-step machine.
-/

namespace TrustTaste

/-! ## MPT-Issuer: deliverable-quantity computation

Embedding of `calcMptToSendFromPayment` (src/MPT-Issuer/server.mjs lines
199-225).  The delivered amount of the validated payment is either an XRP
drops string (parsed to a number) or an IOU object with a currency code and a
decimal value.  Amount arithmetic is modelled exactly over `Rat`. -/

/-- JS `String.prototype.toUpperCase` restricted to the ASCII identifiers the
handlers compare (currency codes, hex ids), as a structurally recursive char
map so that concrete instances evaluate. -/
def jsToUpper (s : String) : String := String.mk (s.data.map Char.toUpper)

/-- The delivered amount read from a validated payment transaction:
either native XRP drops or an issued-asset (IOU) amount. -/
inductive PaidAmount where
  | xrpDrops (drops : Int)
  | iou (currency : String) (value : Rat)
  deriving DecidableEq, Repr

/-- Embedding of `calcMptToSendFromPayment`: drops are converted at
1 XRP = 2 MPT and RLUSD at 1 RLUSD = 100 MPT, both floored; any other
currency or a non-positive amount yields 0. -/
def calcMptToSendFromPayment : PaidAmount → Int
  | .xrpDrops d => if d ≤ 0 then 0 else ⌊(d : ℚ) / 1000000 * 2⌋
  | .iou cur v => if v ≤ 0 then 0 else if jsToUpper cur = "RLUSD" then ⌊v * 100⌋ else 0

/-! ## MPT-Issuer: at-most-once issue step (`/api/payload/:uuid`, lines 786-905)

The handler reads the persisted done marker `SWAP_DONE_<uuid>` from the sqlite
kv store (line 789), and, when it is absent, submits the issuing `Payment` via
`issuerSendMPT` (line 877, an awaited ledger submission) and only then persists
the marker with `kvSet` (line 889).  We model one poll of the issue step for a
fixed event, counting ledger submissions (the successful-submission path, i.e.
`issue.ok` holds). -/

/-- State of the issue step for one swap event: the persisted
`SWAP_DONE_<uuid>` kv marker and the number of issuing payments submitted. -/
structure SwapIssueState where
  doneMarker : Option String
  submitted : Nat
  deriving DecidableEq, Repr

/-- One complete (non-overlapping) status poll of the issue step: skip when the
done marker is present, otherwise submit the issuing payment and persist the
marker.  Models lines 868-905 of src/MPT-Issuer/server.mjs on the
successful-submission path. -/
def pollIssue (txid : String) (s : SwapIssueState) : SwapIssueState :=
  match s.doneMarker with
  | some _ => s
  | none => { doneMarker := some txid, submitted := s.submitted + 1 }

/-- N sequential status polls for the same event. -/
def seqPolls (txid : String) : Nat → SwapIssueState → SwapIssueState
  | 0, s => s
  | n + 1, s => seqPolls txid n (pollIssue txid s)

/-- Program counter of one in-flight poll of the issue step, split at its
`await` suspension points: before the kv read (line 789), after the read but
before the ledger submission (line 877), after the submission but before the
marker write (line 889), and finished. -/
inductive IssuePC where
  | start
  | afterRead
  | afterSubmit
  | done
  deriving DecidableEq, Repr

/-- One in-flight poll: its program counter and the marker value it read. -/
structure IssueThread where
  pc : IssuePC
  already : Option String
  deriving DecidableEq, Repr

/-- Global state of two concurrent polls of the same event: the shared kv
marker, the ledger-submission count, and both handler instances. -/
structure IssueInterleaved where
  kv : Option String
  submitted : Nat
  t0 : IssueThread
  t1 : IssueThread
  deriving DecidableEq, Repr

/-- One atomic micro-step of one in-flight poll; the suspension points between
micro-steps are the `await`s of the handler. -/
def stepIssueThread (txid : String) (kv : Option String) (submitted : Nat)
    (t : IssueThread) : Option String × Nat × IssueThread :=
  match t.pc with
  | .start => (kv, submitted, { pc := .afterRead, already := kv })
  | .afterRead =>
    match t.already with
    | some _ => (kv, submitted, { t with pc := .done })
    | none => (kv, submitted + 1, { t with pc := .afterSubmit })
  | .afterSubmit => (some txid, submitted, { t with pc := .done })
  | .done => (kv, submitted, t)

/-- Advance the scheduled poll (`false` = first, `true` = second) by one
micro-step. -/
def stepIssue (txid : String) (which : Bool) (s : IssueInterleaved) :
    IssueInterleaved :=
  if which then
    let r := stepIssueThread txid s.kv s.submitted s.t1
    { kv := r.1, submitted := r.2.1, t0 := s.t0, t1 := r.2.2 }
  else
    let r := stepIssueThread txid s.kv s.submitted s.t0
    { kv := r.1, submitted := r.2.1, t0 := r.2.2, t1 := s.t1 }

/-- Run a schedule (list of thread choices) of interleaved micro-steps. -/
def runIssue (txid : String) : List Bool → IssueInterleaved → IssueInterleaved
  | [], s => s
  | c :: rest, s => runIssue txid rest (stepIssue txid c s)

/-- Initial state: no done marker, no submissions, both polls at start. -/
def issueInit : IssueInterleaved :=
  { kv := none, submitted := 0
    t0 := { pc := .start, already := none }
    t1 := { pc := .start, already := none } }

/-! ## AI-order: `/buy/status` txid dispatch (src/AI-order/server.js 676-680)

After the buyer checks, the handler consults `txCache`, `inflight` and
`processedTx` in that order before starting a new verification/mint job. -/

/-- Outcome of the txid dispatch in `/buy/status`. -/
inductive TxDispatch where
  | cached
  | pending
  | verifyAndMint
  deriving DecidableEq, Repr

/-- Embedding of lines 678-680 of src/AI-order/server.js: return the cached
result, join an in-flight or already-processed txid as pending, otherwise
start the verification/mint job. -/
def buyStatusTxDispatch (txCacheHas inflightHas processedHas : Bool) :
    TxDispatch :=
  if txCacheHas then .cached
  else if inflightHas then .pending
  else if processedHas then .pending
  else .verifyAndMint

/-! ## Smart-Locker: burn-redemption status (src/Smart-Locker/server.js 508-582) -/

/-- In-memory redeem record stored in the `redeems` map. -/
structure RedeemRecord where
  account : Option String
  nftokenId : Option String
  unlocked : Bool
  deriving DecidableEq, Repr

/-- Whether the holder's on-chain inventory still contains the targeted NFT
instance (the `stillHas` check of lines 541-543, case-insensitive on the id). -/
def stillHasNft (accountNfts : List String) (nftokenId : String) : Bool :=
  accountNfts.any (fun n => jsToUpper n == jsToUpper nftokenId)

/-- Embedding of the `burnedOnChain` computation (lines 531-552): only when
the payload is signed and the record carries an account and NFT id does the
handler query `account_nfts`; the burn is confirmed when the instance is
absent. -/
def burnedOnChainCheck (signed : Bool) (r : RedeemRecord)
    (accountNfts : List String) : Bool :=
  match signed, r.account, r.nftokenId with
  | true, some _, some nid => !(stillHasNft accountNfts nid)
  | _, _, _ => false

/-- Embedding of the unlock condition of line 556:
`((signed && txid) || burnedOnChain) && !r.unlocked`. -/
def unlockFires (signed : Bool) (txid : Option String) (burnedOnChain : Bool)
    (r : RedeemRecord) : Bool :=
  ((signed && txid.isSome) || burnedOnChain) && !r.unlocked

/-- One poll of `/api/redeem/status` for a signed-state/txid/inventory
observation: returns whether the unlock side effect fired and the updated
redeem record (lines 554-567). -/
def redeemStatusStep (signed : Bool) (txid : Option String)
    (accountNfts : List String) (r : RedeemRecord) : Bool × RedeemRecord :=
  if unlockFires signed txid (burnedOnChainCheck signed r accountNfts) r then
    (true, { r with unlocked := true })
  else (false, r)

/-! ## MPT-Issuer: saga policy branch (src/MPT-Issuer/server.mjs 772-1018)

The policy flags are read once per poll from the kv store; the on-ledger
issuance flags gate which steps are possible; the D1 (clawback) and D2 (lock)
and D3 (unlock) branches are evaluated in that fixed order.  The outcome of a
ledger submission performed inside a branch is passed in as an oracle
(`ok`/`txid`), mirroring `submitAsIssuer`. -/

/-- Policy flags read from the kv store plus the payer's blacklist
membership (lines 772-777). -/
structure Policy where
  autoLockAfterSwap : Bool
  autoUnlockAfterSwap : Bool
  autoClawbackBlacklist : Bool
  blacklisted : Bool
  deriving DecidableEq, Repr

/-- On-ledger capability flags of the active issuance
(`getActiveIssuanceFlags`, lines 347-358). -/
structure IssuanceFlags where
  tfMPTCanLock : Bool
  tfMPTRequireAuth : Bool
  tfMPTCanClawback : Bool
  deriving DecidableEq, Repr

/-- Outcome object recorded for one saga step; absent JS fields are the
defaults (`skipped`/`already` absent = false, `txid`/`reason`/`error`
absent = none). -/
structure ActionOutcome where
  ok : Bool
  skipped : Bool := false
  already : Bool := false
  txid : Option String := none
  value : Option String := none
  reason : Option String := none
  error : Option String := none
  deriving DecidableEq, Repr

/-- Embedding of the D1 clawback branch (lines 911-963): runs only for a
blacklisted payer with the auto-clawback policy on; skipped as not-ok when the
asset cannot claw back; idempotent via the `SWAP_CLAWBACK_DONE_<uuid>` marker;
otherwise submits and records the oracle outcome. -/
def clawbackStep (policy : Policy) (flags : IssuanceFlags)
    (clawbackAlready : Option String) (clawOk : Bool) (clawTxid : String)
    (mptToSend : String) : ActionOutcome :=
  if policy.autoClawbackBlacklist && policy.blacklisted then
    if !flags.tfMPTCanClawback then
      { ok := false, skipped := true, reason := some "MPT_CLAWBACK_NOT_ENABLED" }
    else
      match clawbackAlready with
      | some t => { ok := true, already := true, txid := some t, value := some mptToSend }
      | none =>
        if clawOk then { ok := true, txid := some clawTxid, value := some mptToSend }
        else { ok := false, error := some "AUTO_CLAWBACK_FAILED" }
  else
    { ok := true, skipped := true
      reason := some (if policy.blacklisted then "AUTO_CLAWBACK_POLICY_DISABLED" else "NOT_BLACKLISTED") }

/-- Embedding of the D2 lock branch (lines 969-1018): runs only when the
auto-lock policy is on and the clawback step did not succeed for real
(`!(clawback.ok === true && !clawback.skipped)`); otherwise records the skip
with its supersession reason. -/
def lockStep (policy : Policy) (flags : IssuanceFlags)
    (clawback : ActionOutcome) (lockAlready : Option String) (lockOk : Bool)
    (lockTxid : String) : ActionOutcome :=
  if policy.autoLockAfterSwap && !(clawback.ok && !clawback.skipped) then
    if !flags.tfMPTCanLock then
      { ok := false, skipped := true, reason := some "MPT_LOCK_NOT_ENABLED" }
    else
      match lockAlready with
      | some t => { ok := true, already := true, txid := some t }
      | none =>
        if lockOk then { ok := true, txid := some lockTxid }
        else { ok := false, error := some "AUTO_LOCK_FAILED" }
  else
    { ok := true, skipped := true
      reason := some (if policy.autoLockAfterSwap then "SKIPPED_AFTER_SUCCESSFUL_CLAWBACK" else "AUTO_LOCK_POLICY_DISABLED") }

/-! ## MPT-Issuer: authorize branch of the swap saga (lines 792-836)

When the issuance requires holder allow-listing (`tfMPTRequireAuth`, read from
the validated ledger node), the handler consults the persisted
`SWAP_AUTH_DONE_<uuid>` kv marker and submits `MPTokenAuthorize` only when the
marker is absent. -/

/-- Decision taken by the authorize branch. -/
inductive AuthDecision where
  | submit
  | skipAlready (txid : String)
  | skipDisabled
  deriving DecidableEq, Repr

/-- Embedding of the authorize branch: gate on the on-ledger `RequireAuth`
flag, then on the local `SWAP_AUTH_DONE_<uuid>` kv marker. -/
def authorizeBranch (tfMPTRequireAuth : Bool) (authDoneMarker : Option String) :
    AuthDecision :=
  if tfMPTRequireAuth then
    match authDoneMarker with
    | some t => .skipAlready t
    | none => .submit
  else .skipDisabled

/-- Modelled from the spec: the spec's stated guard for the authorize step,
that a submission happens only when the current ledger state does not already
show the holder authorized.  The source code does not consult the holder's
ledger authorization state in this branch, so the spec's guard is stated here
as a predicate over that (free) ledger observation, to be compared with
`authorizeBranch`. -/
def authorizeOnlyIfLedgerUnauthorized (requireAuth : Bool)
    (marker : Option String) (ledgerShowsAuthorized : Bool) : Prop :=
  authorizeBranch requireAuth marker = .submit → ledgerShowsAuthorized = false

/-! ## AI-order: `/buy/status` prologue and buyer pinning (lines 643-680) -/

/-- In-memory order stored in `ordersByPaymentPayload`. -/
structure BuyOrder where
  buyer : Option String
  txid : Option String
  total : Nat
  status : String
  deriving DecidableEq, Repr

/-- Result of the `/buy/status` prologue, before any ledger work. -/
inductive BuyPrologueResult where
  | completedResult
  | completedOrExpired
  | payloadNotFound
  | pending
  | noTxid
  | buyerMismatch
  | proceed
  deriving DecidableEq, Repr

/-- Embedding of lines 643-675 of src/AI-order/server.js: completed-cache
lookup, order lookup, completed-status short-circuit, wallet payload fetch,
signed check, txid check, buyer pinning
(`if (!order.buyer) order.buyer = buyer`), txid freezing, and the buyer
mismatch rejection (`if (buyer !== order.buyer) ... 400`).  Returns the
result and the updated order. -/
def buyStatusPrologue (completedCached : Bool) (order : Option BuyOrder)
    (payloadFound signed : Bool) (account : String) (txid : Option String) :
    BuyPrologueResult × Option BuyOrder :=
  if completedCached then (.completedResult, order)
  else
    match order with
    | none => (.completedOrExpired, none)
    | some o =>
      if o.status = "completed" then (.completedOrExpired, some o)
      else if !payloadFound then (.payloadNotFound, some o)
      else if !signed then (.pending, some o)
      else
        match txid with
        | none => (.noTxid, some o)
        | some t =>
          let o1 := match o.buyer with
            | none => { o with buyer := some account }
            | some _ => o
          let o2 := match o1.txid with
            | none => { o1 with txid := some t }
            | some _ => o1
          if o2.buyer ≠ some account then (.buyerMismatch, some o2)
          else (.proceed, some o2)

/-! ## AI-order: TTL sweep (src/AI-order/server.js 1040-1084)

Each entry of `ordersByPaymentPayload` survives the sweep unless it is
completed and its completion timestamp is older than `ORDER_TTL_MS`; the
`txCache` is swept by its own `TX_CACHE_TTL_MS` when that TTL is positive.
JS timestamp subtraction is modelled over `Int`. -/

/-- Order record as seen by the sweeper: status and optional completion
time. -/
structure OrderRecord where
  status : String
  completedAt : Option Int
  deriving DecidableEq, Repr

/-- Embedding of the `ordersByPaymentPayload` sweep loop (lines 1052-1058):
delete exactly the completed records whose completion time is older than the
TTL. -/
def sweepOrdersByPayload (ttl now : Int) (orders : List (String × OrderRecord)) :
    List (String × OrderRecord) :=
  orders.filter fun e =>
    !(e.2.status == "completed" &&
      (match e.2.completedAt with
       | some t => decide (now - t > ttl)
       | none => false))

/-- Embedding of the `txCache` sweep (lines 1077-1083): when the TTL is
positive, delete entries whose cache stamp is older than the TTL (every entry
is stamped by the patched `txCache.set`, lines 1087-1088). -/
def sweepTxCache (ttl now : Int) (cache : List (String × Int)) :
    List (String × Int) :=
  if 0 < ttl then cache.filter (fun e => !(decide (now - e.2 > ttl))) else cache

/-! ## AI-order: idempotent `/create-order` (lines 522-635) -/

/-- Response body returned by `/create-order` (lines 600-606), reduced to the
fields relevant to intent identity. -/
structure CreateOrderResp where
  totalPrice : Nat
  payloadUuid : String
  deriving DecidableEq, Repr

/-- State touched by `/create-order`: the keyed response cache
(`createOrderCache`) and the count of external wallet payloads created via
`xumm.payload.create`. -/
structure CreateOrderState where
  cache : List (String × CreateOrderResp × Int)
  payloadsCreated : Nat
  deriving DecidableEq, Repr

/-- Lookup of `createOrderCache.get(orderKey)` (first binding wins, matching
map overwrite order). -/
def cacheLookup (cache : List (String × CreateOrderResp × Int)) (key : String) :
    Option (CreateOrderResp × Int) :=
  (cache.find? (fun e => e.1 == key)).map (fun e => e.2)

/-- One complete `/create-order` call for a normalized order key: reuse a
non-expired cached response unchanged (lines 535-539); otherwise create one
external payload, record the order, and cache the response (lines 548-614). -/
def createOrderCall (cacheMs : Int) (key : String) (now : Int) (total : Nat)
    (freshUuid : String) (st : CreateOrderState) :
    CreateOrderResp × CreateOrderState :=
  let fresh :=
    let resp : CreateOrderResp := { totalPrice := total, payloadUuid := freshUuid }
    (resp, { cache := (key, resp, now) :: st.cache
             payloadsCreated := st.payloadsCreated + 1 })
  match cacheLookup st.cache key with
  | some (resp, createdAt) =>
    if now - createdAt < cacheMs then (resp, st) else fresh
  | none => fresh

/-- Decision taken by the synchronous prologue of `/create-order` before any
suspension point: reuse the fresh cache entry, join the in-flight promise for
the same key (lines 542-546), or start a new creation job. -/
inductive CreateOrderDecision where
  | reuseCached
  | joinInflight
  | startNew
  deriving DecidableEq, Repr

/-- Embedding of the cache/in-flight checks of lines 535-546; the checks and
the later `createOrderInflight.set` run without an intervening `await`, so
concurrent callers observe them atomically. -/
def createOrderDecide (cacheMs now : Int) (cachedCreatedAt : Option Int)
    (inflightHas : Bool) : CreateOrderDecision :=
  match cachedCreatedAt with
  | some createdAt =>
    if now - createdAt < cacheMs then .reuseCached
    else if inflightHas then .joinInflight
    else .startNew
  | none => if inflightHas then .joinInflight else .startNew

/-! ## MPT-Issuer: kv store and the policy-update endpoint (lines 101-107,
1253-1272) -/

/-- Durable key-value store of src/MPT-Issuer/server.mjs (sqlite `kv`
table), modelled as a total lookup function. -/
def KvStore : Type := String → Option String

/-- Embedding of `kvSet` (lines 105-107): upsert one key. -/
def kvSet (kv : KvStore) (k v : String) : KvStore :=
  fun q => if q = k then some v else kv q

/-- Request body of `POST /api/kfd/policy`: each policy flag is either absent
(`undefined`) or present with its JS truthiness. -/
structure PolicyBody where
  autoLockAfterSwap : Option Bool
  autoUnlockAfterSwap : Option Bool
  autoClawbackBlacklist : Option Bool
  deriving DecidableEq, Repr

/-- JS `body.flag ? "1" : "0"`. -/
def boolToKv (b : Bool) : String := if b then "1" else "0"

/-- Embedding of the `POST /api/kfd/policy` handler (lines 1253-1264): write
each of the three policy keys only when the corresponding body field is
defined. -/
def postKfdPolicy (body : PolicyBody) (kv : KvStore) : KvStore :=
  let kv1 := match body.autoLockAfterSwap with
    | some b => kvSet kv "POLICY_AUTO_LOCK_AFTER_SWAP" (boolToKv b)
    | none => kv
  let kv2 := match body.autoUnlockAfterSwap with
    | some b => kvSet kv1 "POLICY_AUTO_UNLOCK_AFTER_SWAP" (boolToKv b)
    | none => kv1
  match body.autoClawbackBlacklist with
  | some b => kvSet kv2 "POLICY_AUTO_CLAWBACK_BLACKLIST" (boolToKv b)
  | none => kv2

/-! ## Theorems -/

/-- Helper: once the done marker is persisted, any number of further
sequential polls leaves the issue-step state unchanged. -/
theorem seqPolls_of_done (txid t : String) (n : Nat) (s : SwapIssueState)
    (h : s.doneMarker = some t) : seqPolls txid n s = s := by
  induction n with
  | zero => rfl
  | succ n ih =>
    have hp : pollIssue txid s = s := by simp [pollIssue, h]
    simp [seqPolls, hp, ih]

/-- C4: the deliverable MPT quantity is a pure floor of the delivered amount
at the fixed per-asset rate: 1.0 XRP (1000000 drops) at rate 2 gives 2,
1.4 XRP gives floor(1.4 * 2) = 2, any positive drop amount d gives
floor(d / 10^6 * 2), and a positive RLUSD amount v gives floor(v * 100)
(`calcMptToSendFromPayment`, src/MPT-Issuer/server.mjs 199-225). -/
theorem mpt_quantity_determinism :
    calcMptToSendFromPayment (.xrpDrops 1000000) = 2 ∧
    calcMptToSendFromPayment (.xrpDrops 1400000) = 2 ∧
    (∀ d : Int, 0 < d →
      calcMptToSendFromPayment (.xrpDrops d) = ⌊(d : ℚ) / 1000000 * 2⌋) ∧
    (∀ v : ℚ, 0 < v →
      calcMptToSendFromPayment (.iou "RLUSD" v) = ⌊v * 100⌋) := by
  refine ⟨by norm_num [calcMptToSendFromPayment],
          by norm_num [calcMptToSendFromPayment], ?_, ?_⟩
  · intro d hd
    simp only [calcMptToSendFromPayment]
    rw [if_neg (not_le.mpr hd)]
  · intro v hv
    simp only [calcMptToSendFromPayment]
    rw [if_neg (not_le.mpr hv), if_pos (by decide)]

/-- Witness for `mpt_quantity_determinism` at the concrete RLUSD amount
3/2. -/
theorem mpt_quantity_determinism_witness :
    (0 : ℚ) < 3 / 2 ∧
    calcMptToSendFromPayment (.iou "RLUSD" (3 / 2)) = ⌊(3 / 2 : ℚ) * 100⌋ :=
  ⟨by norm_num, mpt_quantity_determinism.2.2.2 (3 / 2) (by norm_num)⟩

/-- C1 counterexample: two concurrent status polls of the same swap event,
interleaved at the handler's `await` suspension points, both read the absent
`SWAP_DONE_<uuid>` marker before either persists it, so BOTH submit the
issuing ledger payment: the schedule below yields two submissions, not one.
The MPT-Issuer handler has no single-flight guard per uuid. -/
theorem concurrent_polls_double_submit :
    (runIssue "TXID1" [false, true, false, true, false, true] issueInit).submitted
      = 2 ∧
    (runIssue "TXID1" [false, true, false, true, false, true] issueInit).submitted
      ≠ 1 := by
  constructor <;> decide

/-- C1 (amended): for sequential (non-overlapping) status polls of the same
swap event, the persisted `SWAP_DONE_<uuid>` marker makes the issue step
execute exactly once across any N >= 1 polls (each submission succeeding);
once the marker is persisted (it survives a crash, living in sqlite), a
resumed poll is a no-op; and in the AI-order `/buy/status` handler a poll
that finds the txid in flight never starts a second execution.  Two polls of
the MPT-Issuer handler that overlap at an `await` point, however, can both
submit (see the counterexample). -/
theorem issue_step_at_most_once_sequential (txid : String) (n : Nat)
    (h : 1 ≤ n) :
    (seqPolls txid n { doneMarker := none, submitted := 0 }).submitted = 1 ∧
    (∀ s : SwapIssueState, s.doneMarker.isSome → pollIssue txid s = s) ∧
    (∀ c p : Bool, buyStatusTxDispatch c true p ≠ .verifyAndMint) := by
  refine ⟨?_, ?_, ?_⟩
  · obtain ⟨m, rfl⟩ : ∃ m, n = m + 1 := ⟨n - 1, (Nat.succ_pred_eq_of_pos h).symm⟩
    have h1 : seqPolls txid (m + 1) { doneMarker := none, submitted := 0 }
        = seqPolls txid m { doneMarker := some txid, submitted := 1 } := rfl
    rw [h1, seqPolls_of_done txid txid m _ rfl]
  · intro s hs
    obtain ⟨t, ht⟩ := Option.isSome_iff_exists.mp hs
    simp [pollIssue, ht]
  · intro c p
    cases c <;> cases p <;> decide

/-- Witness for `issue_step_at_most_once_sequential` at N = 3 polls. -/
theorem issue_step_at_most_once_sequential_witness :
    (1 : Nat) ≤ 3 ∧
    (seqPolls "TX" 3 { doneMarker := none, submitted := 0 }).submitted = 1 :=
  ⟨by decide, (issue_step_at_most_once_sequential "TX" 3 (by decide)).1⟩

/-- C2 counterexample: with the wallet reporting signed = true and a txid,
while the holder's on-chain inventory still contains the targeted NFT
instance (so `burnedOnChain` = false), the unlock side effect fires anyway:
line 556 of src/Smart-Locker/server.js accepts `(signed && txid)` as an
alternative to the inventory check. -/
theorem unlock_fires_despite_inventory_presence :
    burnedOnChainCheck true
      { account := some "rHOLDER", nftokenId := some "000A", unlocked := false }
      ["000A"] = false ∧
    (redeemStatusStep true (some "DEADBEEF") ["000A"]
      { account := some "rHOLDER", nftokenId := some "000A", unlocked := false
      }).1 = true := by
  constructor <;> decide

/-- C2 (amended): the unlock side effect fires exactly when the record is not
yet unlocked and EITHER the wallet reports signed with a txid OR the on-chain
inventory read confirms the asset instance absent; when it fires the record
is marked unlocked, and a record already unlocked never fires again. -/
theorem redeem_unlock_characterization (signed : Bool) (txid : Option String)
    (nfts : List String) (r : RedeemRecord) :
    ((redeemStatusStep signed txid nfts r).1 =
      (((signed && txid.isSome) || burnedOnChainCheck signed r nfts) &&
        !r.unlocked)) ∧
    ((redeemStatusStep signed txid nfts r).1 = true →
      ((redeemStatusStep signed txid nfts r).2).unlocked = true) ∧
    (r.unlocked = true → (redeemStatusStep signed txid nfts r).1 = false) := by
  refine ⟨?_, ?_, ?_⟩
  · unfold redeemStatusStep
    split
    · next hc =>
      have hc2 : (((signed && txid.isSome) || burnedOnChainCheck signed r nfts)
          && !r.unlocked) = true := by simpa [unlockFires] using hc
      simp [hc2]
    · next hc =>
      have hc2 : (((signed && txid.isSome) || burnedOnChainCheck signed r nfts)
          && !r.unlocked) = false := by
        simpa [unlockFires] using (Bool.not_eq_true _).mp hc
      simp [hc2]
  · intro hf
    unfold redeemStatusStep at hf ⊢
    split at hf
    · next hc => simp [redeemStatusStep, hc]
    · simp at hf
  · intro hu
    unfold redeemStatusStep
    rw [if_neg]
    simp [unlockFires, hu]

/-- Witness for `redeem_unlock_characterization` at a concrete fired
unlock. -/
theorem redeem_unlock_characterization_witness :
    (redeemStatusStep true (some "AB") []
      { account := some "rH", nftokenId := some "01", unlocked := false }).1
        = true ∧
    ((redeemStatusStep true (some "AB") []
      { account := some "rH", nftokenId := some "01", unlocked := false
      }).2).unlocked = true :=
  ⟨by decide,
   (redeem_unlock_characterization true (some "AB") []
      { account := some "rH", nftokenId := some "01", unlocked := false
      }).2.1 (by decide)⟩

/-- C3: for a verified swap payment whose payer is blacklisted, with
auto-clawback and auto-lock both enabled and the asset supporting clawback,
and the clawback submission succeeding (or already persisted), the saga
outcome records `clawback.ok = true` and `lock` skipped with the supersession
reason `SKIPPED_AFTER_SUCCESSFUL_CLAWBACK`: the D1 clawback branch supersedes
the D2 lock branch (src/MPT-Issuer/server.mjs 908-1018). -/
theorem clawback_supersedes_lock (policy : Policy) (flags : IssuanceFlags)
    (clawbackAlready lockAlready : Option String) (clawOk lockOk : Bool)
    (clawTxid lockTxid mptToSend : String)
    (hb : policy.blacklisted = true)
    (hc : policy.autoClawbackBlacklist = true)
    (hl : policy.autoLockAfterSwap = true)
    (hf : flags.tfMPTCanClawback = true)
    (hok : clawbackAlready = none → clawOk = true) :
    (clawbackStep policy flags clawbackAlready clawOk clawTxid mptToSend).ok
      = true ∧
    (clawbackStep policy flags clawbackAlready clawOk clawTxid mptToSend).skipped
      = false ∧
    (lockStep policy flags
      (clawbackStep policy flags clawbackAlready clawOk clawTxid mptToSend)
      lockAlready lockOk lockTxid).skipped = true ∧
    (lockStep policy flags
      (clawbackStep policy flags clawbackAlready clawOk clawTxid mptToSend)
      lockAlready lockOk lockTxid).reason =
      some "SKIPPED_AFTER_SUCCESSFUL_CLAWBACK" := by
  rcases clawbackAlready with _ | t
  · simp [clawbackStep, lockStep, hb, hc, hl, hf, hok rfl]
  · simp [clawbackStep, lockStep, hb, hc, hl, hf]

/-- Witness for `clawback_supersedes_lock` at concrete flags and a succeeding
clawback submission. -/
theorem clawback_supersedes_lock_witness :
    (clawbackStep
      { autoLockAfterSwap := true, autoUnlockAfterSwap := false
        autoClawbackBlacklist := true, blacklisted := true }
      { tfMPTCanLock := true, tfMPTRequireAuth := true, tfMPTCanClawback := true }
      none true "CLAWTX" "2").ok = true ∧
    (lockStep
      { autoLockAfterSwap := true, autoUnlockAfterSwap := false
        autoClawbackBlacklist := true, blacklisted := true }
      { tfMPTCanLock := true, tfMPTRequireAuth := true, tfMPTCanClawback := true }
      (clawbackStep
        { autoLockAfterSwap := true, autoUnlockAfterSwap := false
          autoClawbackBlacklist := true, blacklisted := true }
        { tfMPTCanLock := true, tfMPTRequireAuth := true, tfMPTCanClawback := true }
        none true "CLAWTX" "2")
      none true "LOCKTX").reason = some "SKIPPED_AFTER_SUCCESSFUL_CLAWBACK" := by
  have h := clawback_supersedes_lock
    { autoLockAfterSwap := true, autoUnlockAfterSwap := false
      autoClawbackBlacklist := true, blacklisted := true }
    { tfMPTCanLock := true, tfMPTRequireAuth := true, tfMPTCanClawback := true }
    none none true true "CLAWTX" "LOCKTX" "2"
    rfl rfl rfl rfl (fun _ => rfl)
  exact ⟨h.1, h.2.2.2⟩

/-- C5: the payer first observed for an order is pinned
(`if (!order.buyer) order.buyer = buyer`), and any later status poll whose
signing account differs from the pinned payer is rejected with the
`buyerMismatch` error before any verification or minting, leaving the pinned
payer and the order status unchanged — a different account cannot complete
someone else's intent (src/AI-order/server.js 667-675). -/
theorem buyer_pinning_anti_hijack (o : BuyOrder) (account b t : String)
    (hs : o.status ≠ "completed") :
    (o.buyer = none →
      ∃ o1, (buyStatusPrologue false (some o) true true account (some t)).2
          = some o1 ∧ o1.buyer = some account ∧
        (buyStatusPrologue false (some o) true true account (some t)).1
          = .proceed) ∧
    (o.buyer = some b → account ≠ b →
      (buyStatusPrologue false (some o) true true account (some t)).1
        = .buyerMismatch ∧
      ∃ o2, (buyStatusPrologue false (some o) true true account (some t)).2
          = some o2 ∧ o2.buyer = some b ∧ o2.status = o.status) := by
  constructor
  · intro hb
    rcases o with ⟨buyer, txid, total, status⟩
    cases buyer with
    | none =>
      cases txid <;>
        simp_all [buyStatusPrologue]
    | some x => simp at hb
  · intro hb hne
    rcases o with ⟨buyer, txid, total, status⟩
    cases buyer with
    | none => simp at hb
    | some x =>
      obtain rfl : x = b := by simpa using hb
      cases txid <;>
        simp_all [buyStatusPrologue, Ne.symm hne]

/-- Witness for `buyer_pinning_anti_hijack`: account rOTHER polling an order
pinned to rBUYER is rejected. -/
theorem buyer_pinning_anti_hijack_witness :
    (buyStatusPrologue false
      (some { buyer := some "rBUYER", txid := none, total := 2
              status := "created" })
      true true "rOTHER" (some "TX1")).1 = BuyPrologueResult.buyerMismatch :=
  ((buyer_pinning_anti_hijack
      { buyer := some "rBUYER", txid := none, total := 2, status := "created" }
      "rOTHER" "rBUYER" "TX1" (by decide)).2 rfl (by decide)).1

/-- C6 counterexample: terminal verification outcomes are NOT cached
permanently: the TTL sweep (src/AI-order/server.js 1077-1083) deletes a
`txCache` entry older than `TX_CACHE_TTL_MS` (default 1800000 ms), and a
later poll for a txid absent from `txCache`, `inflight` and `processedTx`
(the state of an evicted hard-failure txid) starts verification again. -/
theorem txcache_not_permanent :
    sweepTxCache 1800000 1800001 [("ABCD", 0)] = [] ∧
    buyStatusTxDispatch false false false = .verifyAndMint := by
  constructor <;> decide

/-- C6 (amended): a terminal outcome is cached by txid only for the
`TX_CACHE_TTL_MS` window: an entry survives a sweep at time `now` exactly
when its age is within the TTL; while cached the poll returns the cached
outcome without re-verification, and an evicted SUCCESS txid still returns
pending via the unswept `processedTx` set — but an evicted hard-failure txid
is re-verified (see the counterexample). -/
theorem txcache_ttl_bounded (ttl now ts : Int) (k : String)
    (cache : List (String × Int)) (httl : 0 < ttl) :
    ((k, ts) ∈ sweepTxCache ttl now cache ↔ (k, ts) ∈ cache ∧ now - ts ≤ ttl) ∧
    buyStatusTxDispatch true false false = .cached ∧
    buyStatusTxDispatch false false true = .pending := by
  refine ⟨?_, by decide, by decide⟩
  simp [sweepTxCache, httl, List.mem_filter, not_lt]

/-- Witness for `txcache_ttl_bounded`: a 5 ms old entry with a 10 ms TTL
survives the sweep. -/
theorem txcache_ttl_bounded_witness :
    (0 : Int) < 10 ∧
    (("K", (3 : Int)) ∈ sweepTxCache 10 8 [("K", 3)] ↔
      ("K", (3 : Int)) ∈ [("K", (3 : Int))] ∧ (8 : Int) - 3 ≤ 10) :=
  ⟨by decide, (txcache_ttl_bounded 10 8 3 "K" [("K", 3)] (by decide)).1⟩

/-- C7: a second identical `/create-order` call within the
`CREATE_ORDER_CACHE_MS` window returns the cached response unchanged, so both
calls report the same payload reference while only one external wallet
payload was created; and a caller arriving while an identical request is in
flight joins that in-flight creation instead of starting a second one
(src/AI-order/server.js 532-546, 608-616). -/
theorem create_order_idempotent (cacheMs : Int) (key fresh1 fresh2 : String)
    (t1 t2 : Int) (total : Nat) (st0 : CreateOrderState)
    (hmiss : cacheLookup st0.cache key = none)
    (hwin : t2 - t1 < cacheMs) :
    (createOrderCall cacheMs key t2 total fresh2
        (createOrderCall cacheMs key t1 total fresh1 st0).2).1 =
      (createOrderCall cacheMs key t1 total fresh1 st0).1 ∧
    (createOrderCall cacheMs key t2 total fresh2
        (createOrderCall cacheMs key t1 total fresh1 st0).2).2.payloadsCreated =
      st0.payloadsCreated + 1 ∧
    (∀ now : Int, createOrderDecide cacheMs now none true = .joinInflight) := by
  have h1 : createOrderCall cacheMs key t1 total fresh1 st0 =
      ({ totalPrice := total, payloadUuid := fresh1 },
       { cache := (key, { totalPrice := total, payloadUuid := fresh1 }, t1)
           :: st0.cache
         payloadsCreated := st0.payloadsCreated + 1 }) := by
    simp [createOrderCall, hmiss]
  have h2 : cacheLookup
      ((key, ({ totalPrice := total, payloadUuid := fresh1 }
        : CreateOrderResp), t1) :: st0.cache) key =
      some ({ totalPrice := total, payloadUuid := fresh1 }, t1) := by
    simp [cacheLookup, List.find?]
  refine ⟨?_, ?_, fun now => rfl⟩
  · rw [h1]
    simp [createOrderCall, h2, hwin]
  · rw [h1]
    simp [createOrderCall, h2, hwin]

/-- Witness for `create_order_idempotent` at an empty initial state and a
second call 5 ms after the first with a 60000 ms window. -/
theorem create_order_idempotent_witness :
    cacheLookup ([] : List (String × CreateOrderResp × Int)) "mpt|rB|[]"
      = none ∧
    (5 : Int) - 0 < 60000 ∧
    (createOrderCall 60000 "mpt|rB|[]" 5 2 "uuid2"
        (createOrderCall 60000 "mpt|rB|[]" 0 2 "uuid1"
          { cache := [], payloadsCreated := 0 }).2).1 =
      (createOrderCall 60000 "mpt|rB|[]" 0 2 "uuid1"
        { cache := [], payloadsCreated := 0 }).1 :=
  ⟨rfl, by decide,
   (create_order_idempotent 60000 "mpt|rB|[]" "uuid1" "uuid2" 0 5 2
      { cache := [], payloadsCreated := 0 } rfl (by decide)).1⟩

/-- C8 counterexample: the swap saga's authorize branch decides to submit
`MPTokenAuthorize` from the `RequireAuth` flag and the local persisted
`SWAP_AUTH_DONE_<uuid>` kv marker alone; with the marker absent it submits
even when the current ledger state already shows the holder authorized, so
the spec's guard "the ledger does not already show the holder authorized,
checked against current ledger state" fails at that input
(src/MPT-Issuer/server.mjs 794-829). -/
theorem authorize_ignores_ledger_auth_state :
    ¬ authorizeOnlyIfLedgerUnauthorized true none true := by
  intro h
  exact absurd (h rfl) (by decide)

/-- C8 (amended): the authorize step executes exactly when the issuance's
on-ledger flags require holder allow-listing AND no `SWAP_AUTH_DONE_<uuid>`
marker exists in the local durable kv store; the holder's current ledger
authorization state is not consulted by this branch. -/
theorem authorize_gated_by_flag_and_marker (requireAuth : Bool)
    (marker : Option String) :
    authorizeBranch requireAuth marker = .submit ↔
      requireAuth = true ∧ marker = none := by
  cases requireAuth <;> cases marker <;> simp [authorizeBranch]

/-- Witness for `authorize_gated_by_flag_and_marker`: with `RequireAuth` set
and no marker, the branch submits. -/
theorem authorize_gated_by_flag_and_marker_witness :
    authorizeBranch true none = AuthDecision.submit :=
  (authorize_gated_by_flag_and_marker true none).mpr ⟨rfl, rfl⟩

/-- C9: one pass of the TTL sweep over `ordersByPaymentPayload` removes
exactly the completed records whose completion time is older than
`ORDER_TTL_MS`: a non-completed (pending) record survives unchanged no matter
its age, and a completed record older than the TTL is removed
(src/AI-order/server.js 1052-1058). -/
theorem ttl_sweep_terminal_only (ttl now : Int)
    (orders : List (String × OrderRecord)) (k : String) (o : OrderRecord)
    (tc : Int) :
    (o.status ≠ "completed" →
      ((k, o) ∈ sweepOrdersByPayload ttl now orders ↔ (k, o) ∈ orders)) ∧
    (o.status = "completed" → o.completedAt = some tc → now - tc > ttl →
      (k, o) ∉ sweepOrdersByPayload ttl now orders) := by
  constructor
  · intro h
    have hb : (o.status == "completed") = false := by
      simpa using h
    simp [sweepOrdersByPayload, List.mem_filter, hb]
  · intro h hca hgt
    have hb : (o.status == "completed") = true := by
      simpa using h
    simp [sweepOrdersByPayload, List.mem_filter, hb, hca, hgt]

/-- Witness for `ttl_sweep_terminal_only`: a pending record aged far past the
TTL survives the sweep. -/
theorem ttl_sweep_terminal_only_witness :
    ({ status := "created", completedAt := some 0 } : OrderRecord).status
      ≠ "completed" ∧
    (("P1", ({ status := "created", completedAt := some 0 } : OrderRecord)) ∈
      sweepOrdersByPayload 600000 999999999
        [("P1", { status := "created", completedAt := some 0 })] ↔
     ("P1", ({ status := "created", completedAt := some 0 } : OrderRecord)) ∈
        [("P1", ({ status := "created", completedAt := some 0 } : OrderRecord))]) :=
  ⟨by decide,
   (ttl_sweep_terminal_only 600000 999999999
      [("P1", { status := "created", completedAt := some 0 })] "P1"
      { status := "created", completedAt := some 0 } 0).1 (by decide)⟩

/-- C10: `POST /api/kfd/policy` writes only the policy keys whose flag is
present (defined) in the request body; any key other than the three policy
keys is untouched, an absent flag keeps its previously stored value, and a
present flag is stored as its truthiness ("1"/"0")
(src/MPT-Issuer/server.mjs 1253-1264). -/
theorem policy_post_frame (body : PolicyBody) (kv : KvStore) :
    (∀ k : String, k ≠ "POLICY_AUTO_LOCK_AFTER_SWAP" →
      k ≠ "POLICY_AUTO_UNLOCK_AFTER_SWAP" →
      k ≠ "POLICY_AUTO_CLAWBACK_BLACKLIST" →
      postKfdPolicy body kv k = kv k) ∧
    (body.autoLockAfterSwap = none →
      postKfdPolicy body kv "POLICY_AUTO_LOCK_AFTER_SWAP" =
        kv "POLICY_AUTO_LOCK_AFTER_SWAP") ∧
    (body.autoUnlockAfterSwap = none →
      postKfdPolicy body kv "POLICY_AUTO_UNLOCK_AFTER_SWAP" =
        kv "POLICY_AUTO_UNLOCK_AFTER_SWAP") ∧
    (body.autoClawbackBlacklist = none →
      postKfdPolicy body kv "POLICY_AUTO_CLAWBACK_BLACKLIST" =
        kv "POLICY_AUTO_CLAWBACK_BLACKLIST") ∧
    (∀ b, body.autoLockAfterSwap = some b →
      postKfdPolicy body kv "POLICY_AUTO_LOCK_AFTER_SWAP" =
        some (boolToKv b)) ∧
    (∀ b, body.autoUnlockAfterSwap = some b →
      postKfdPolicy body kv "POLICY_AUTO_UNLOCK_AFTER_SWAP" =
        some (boolToKv b)) ∧
    (∀ b, body.autoClawbackBlacklist = some b →
      postKfdPolicy body kv "POLICY_AUTO_CLAWBACK_BLACKLIST" =
        some (boolToKv b)) := by
  rcases body with ⟨bl, bu, bc⟩
  rcases bl with _ | b1 <;> rcases bu with _ | b2 <;> rcases bc with _ | b3 <;>
    simp_all [postKfdPolicy, kvSet]

/-- Witness for `policy_post_frame` at a body setting only the lock flag:
an unrelated key and the two absent flags keep their stored values while the
lock key is written. -/
theorem policy_post_frame_witness :
    postKfdPolicy
      { autoLockAfterSwap := some true, autoUnlockAfterSwap := none
        autoClawbackBlacklist := none }
      (fun _ => some "old") "BLACKLIST_rX" = some "old" ∧
    postKfdPolicy
      { autoLockAfterSwap := some true, autoUnlockAfterSwap := none
        autoClawbackBlacklist := none }
      (fun _ => some "old") "POLICY_AUTO_UNLOCK_AFTER_SWAP" = some "old" ∧
    postKfdPolicy
      { autoLockAfterSwap := some true, autoUnlockAfterSwap := none
        autoClawbackBlacklist := none }
      (fun _ => some "old") "POLICY_AUTO_LOCK_AFTER_SWAP" = some "1" := by
  have h := policy_post_frame
    { autoLockAfterSwap := some true, autoUnlockAfterSwap := none
      autoClawbackBlacklist := none }
    (fun _ => some "old")
  exact ⟨h.1 "BLACKLIST_rX" (by decide) (by decide) (by decide),
    h.2.2.1 rfl, h.2.2.2.2.1 true rfl⟩

end TrustTaste
